import Mathlib

/-!
Verification of the DiaWell input-normalization and risk-scoring pipeline
(`app.py`). The embedding models numeric values as rationals, raw form data
as an association list (Flask `request.form`: `get` returns the first value
bound to a key), and the classifier as an abstract capability whose
invocations may fail, mirroring the `try`/`except` boundary in the route
handler.
-/

namespace DiaWell

/-- Raw form data: an association list from field names to submitted textual
values. -/
abbrev Form := List (String × String)

/-- Model of Flask `request.form.get(key)`: the first value bound to the
key, or `none` when the key is absent. -/
def Form.get (form : Form) (k : String) : Option String :=
  (form.find? (fun p => p.1 = k)).map (fun p => p.2)

/-- The eight feature fields of `RANGES` in `app.py`. -/
inductive Field where
  | pregnancies
  | age
  | glucose
  | bloodpressure
  | skinthickness
  | insulin
  | bmi
  | dpf
deriving DecidableEq

/-- The `RANGES` table of `app.py` (lines 37-46): declared (lo, hi) bounds
per field. -/
def RANGES : Field → ℚ × ℚ
  | .pregnancies => (0, 20)
  | .age => (1, 120)
  | .glucose => (20, 500)
  | .bloodpressure => (20, 200)
  | .skinthickness => (5, 100)
  | .insulin => (0, 900)
  | .bmi => (10, 70)
  | .dpf => (0, 3)

/-- Entry `pregnancies` of the `DEFAULTS` dict of `app.py` (line 50). -/
def DEFAULTS_pregnancies : ℚ := 0

/-- Entry `skinthickness` of the `DEFAULTS` dict of `app.py` (line 51). -/
def DEFAULTS_skinthickness : ℚ := 10

/-- Entry `dpf` of the `DEFAULTS` dict of `app.py` (line 52): the float
`0.2`, embedded as the rational 1/5. -/
def DEFAULTS_dpf : ℚ := 1/5

/-- Accumulator pass over decimal digit characters; fails at the first
non-digit. -/
def digitsToNat (acc : Nat) : List Char → Option Nat
  | [] => some acc
  | c :: cs =>
    if c.isDigit then digitsToNat (10 * acc + (c.toNat - 48)) cs else none

/-- A non-empty run of decimal digits, as a natural number. -/
def parseNatDigits (l : List Char) : Option Nat :=
  match l with
  | [] => none
  | _ => digitsToNat 0 l

/-- Leading and trailing whitespace removed, as the Python numeric casts do
before parsing. -/
def stripWs (l : List Char) : List Char :=
  ((l.dropWhile Char.isWhitespace).reverse.dropWhile Char.isWhitespace).reverse

/-- Model of the Python `int(s)` cast on a form string, as a rational:
optional whitespace, optional sign, a non-empty run of digits. -/
def parseIntQ (s : String) : Option ℚ :=
  match stripWs s.data with
  | '-' :: rest => (parseNatDigits rest).map (fun n => -(n : ℚ))
  | '+' :: rest => (parseNatDigits rest).map (fun n => (n : ℚ))
  | l => (parseNatDigits l).map (fun n => (n : ℚ))

/-- Unsigned decimal digits with an optional single decimal
point, at least one digit overall, as an exact rational. -/
def parseFloatCore (l : List Char) : Option ℚ :=
  let ip := l.takeWhile (fun c => c ≠ '.')
  match l.dropWhile (fun c => c ≠ '.') with
  | [] => (parseNatDigits ip).map (fun n => (n : ℚ))
  | _ :: fp =>
    if fp.contains '.' then none
    else if ip.isEmpty && fp.isEmpty then none
    else
      match (if ip.isEmpty then some 0 else parseNatDigits ip),
            (if fp.isEmpty then some 0 else parseNatDigits fp) with
      | some a, some b => some ((a : ℚ) + (b : ℚ) / (10 : ℚ) ^ fp.length)
      | _, _ => none

/-- Model of the Python `float(s)` cast on a form string, as an exact
rational: optional whitespace and sign, then decimal digits (exponents and
special values are not used by the inputs of this app). -/
def parseFloatQ (s : String) : Option ℚ :=
  match stripWs s.data with
  | '-' :: rest => (parseFloatCore rest).map (fun q => -q)
  | '+' :: rest => parseFloatCore rest
  | l => parseFloatCore l

/-- `to_number` of `app.py` (lines 56-62): an absent or empty value yields
the default, a value the cast rejects yields the default, otherwise the
cast result. -/
def to_number (val : Option String) (cast : String → Option ℚ)
    (default : Option ℚ) : Option ℚ :=
  match val with
  | none => default
  | some s =>
    if s = "" then default
    else
      match cast s with
      | some n => some n
      | none => default

/-- `clamp` of `app.py` (lines 64-68): `None` passes through, otherwise
saturate into the declared range of the field via `max(lo, min(hi, val))`. -/
def clamp (name : Field) (val : Option ℚ) : Option ℚ :=
  match val with
  | none => none
  | some v =>
    let lo := (RANGES name).1
    let hi := (RANGES name).2
    some (max lo (min hi v))

/-- Clamp applied to a value known to be present; on a `some` argument
`clamp` always returns `some`, so the fallback never fires. -/
def clampSome (name : Field) (v : ℚ) : ℚ :=
  (clamp name (some v)).getD v

/-- The Python `x or d` on a number `x`: `0` is falsy, so a zero value is
replaced by `d` (lines 96, 100, 103 of `app.py`). -/
def orElse0 (x d : ℚ) : ℚ :=
  if x = 0 then d else x

/-- The validation failure of `app.py` line 93, carrying the list of
missing or invalid required field names. -/
structure ValidationError where
  missingFields : List String
deriving DecidableEq

/-- The eight normalized values the route handler holds in locals after
clamping (lines 96-103 of `app.py`). -/
structure Normalized where
  pregnancies : ℚ
  age : ℚ
  glucose : ℚ
  bloodpressure : ℚ
  skinthickness : ℚ
  insulin : ℚ
  bmi : ℚ
  dpf : ℚ
deriving DecidableEq

/-- The feature row built on line 106 of `app.py`:
`[pregnancies, glucose, bloodpressure, skinthickness, insulin, bmi, dpf, age]`. -/
def Normalized.features (n : Normalized) : List ℚ :=
  [n.pregnancies, n.glucose, n.bloodpressure, n.skinthickness, n.insulin,
   n.bmi, n.dpf, n.age]

/-- The parsing, validation, default-substitution and clamping performed by
the `predict` handler (lines 78-103 of `app.py`), as a function of the
eight field lookups. -/
def normalizeVals (ageS glucoseS bloodpressureS insulinS bmiS
    pregnanciesS skinthicknessS dpfS : Option String) :
    Except ValidationError Normalized :=
  let age := to_number ageS parseIntQ none
  let glucose := to_number glucoseS parseIntQ none
  let bloodpressure := to_number bloodpressureS parseIntQ none
  let insulin := to_number insulinS parseIntQ none
  let bmi := to_number bmiS parseFloatQ none
  let pregnancies := to_number pregnanciesS parseIntQ (some DEFAULTS_pregnancies)
  let skinthickness := to_number skinthicknessS parseIntQ (some DEFAULTS_skinthickness)
  let dpf := to_number dpfS parseFloatQ (some DEFAULTS_dpf)
  let required : List (String × Option ℚ) :=
    [("age", age), ("glucose", glucose), ("bloodpressure", bloodpressure),
     ("insulin", insulin), ("bmi", bmi)]
  let missing : List String := (required.filter (fun p => p.2.isNone)).map Prod.fst
  match age, glucose, bloodpressure, insulin, bmi with
  | some a, some g, some bp, some ins, some b =>
    Except.ok
      { pregnancies :=
          clampSome .pregnancies
            (orElse0 (pregnancies.getD DEFAULTS_pregnancies) DEFAULTS_pregnancies)
        age := clampSome .age a
        glucose := clampSome .glucose g
        bloodpressure := clampSome .bloodpressure bp
        skinthickness :=
          clampSome .skinthickness
            (orElse0 (skinthickness.getD DEFAULTS_skinthickness) DEFAULTS_skinthickness)
        insulin := clampSome .insulin ins
        bmi := clampSome .bmi b
        dpf := clampSome .dpf (orElse0 (dpf.getD DEFAULTS_dpf) DEFAULTS_dpf) }
  | _, _, _, _, _ => Except.error ⟨missing⟩

/-- The FeatureNormalizer: reads the eight feature fields from the form by
name (lines 78-87 of `app.py`) and normalizes them. -/
def normalize (form : Form) : Except ValidationError Normalized :=
  normalizeVals (form.get "age") (form.get "glucose")
    (form.get "bloodpressure") (form.get "insulin") (form.get "bmi")
    (form.get "pregnancies") (form.get "skinthickness") (form.get "dpf")

/-- The classifier capability. `predict_proba` yields the probability row
for the single submitted sample (the `[0]` row extraction of line 110 is
folded into the capability); `predict` yields the predicted classes. Either
invocation may fail, modelling the exceptions caught on line 113. -/
structure Classifier where
  predict_proba : List ℚ → Except String (List ℚ)
  predict : List ℚ → Except String (List Int)

/-- The scoring block of `app.py` (lines 109-112): take `probs[1]` as the
positive-class probability and `predict(...)[0]` as the class; any failure
(a raised exception or an out-of-bounds index) is an error. -/
def score (model : Classifier) (features : List ℚ) :
    Except String (Int × ℚ) :=
  match model.predict_proba features with
  | .error e => .error e
  | .ok probs =>
    match probs[1]? with
    | none => .error "list index out of range"
    | some prob_pos =>
      match model.predict features with
      | .error e => .error e
      | .ok preds =>
        match preds[0]? with
        | none => .error "list index out of range"
        | some pred => .ok (pred, prob_pos)

/-- A row of the `patients` table (lines 18-30 and the INSERT on
lines 121-124 of `app.py`). -/
structure PatientRecord where
  name : String
  age : ℚ
  pregnancies : ℚ
  glucose : ℚ
  bloodpressure : ℚ
  skinthickness : ℚ
  insulin : ℚ
  bmi : ℚ
  dpf : ℚ
  probability : ℚ
  prediction : String
deriving DecidableEq

/-- The three outcomes of the `/predict` route: the 400 validation message
(line 93), the 500 model-error message (line 114), or the rendered result
page (lines 129-132) carrying the name, verdict label, positive-class
probability and the normalized inputs. -/
inductive Response where
  | validationError (missingFields : List String)
  | scoringError (message : String)
  | ok (name result : String) (probability : ℚ) (inputs : Normalized)
deriving DecidableEq

/-- The `/predict` route handler (lines 74-132 of `app.py`): read the name
with default `"Unknown"`, normalize, score, label the verdict, append one
row to the `patients` table on success, and answer. The database is
threaded explicitly as the list of saved rows. -/
def predict (model : Classifier) (form : Form) (db : List PatientRecord) :
    Response × List PatientRecord :=
  let name := (form.get "name").getD "Unknown"
  match normalize form with
  | .error e => (.validationError e.missingFields, db)
  | .ok n =>
    match score model n.features with
    | .error e => (.scoringError ("Model prediction error: " ++ e), db)
    | .ok (pred, prob_pos) =>
      let result := if pred = 1 then "Diabetes Risk" else "No Risk"
      (.ok name result prob_pos n,
       db ++ [{ name := name, age := n.age, pregnancies := n.pregnancies,
                glucose := n.glucose, bloodpressure := n.bloodpressure,
                skinthickness := n.skinthickness, insulin := n.insulin,
                bmi := n.bmi, dpf := n.dpf, probability := prob_pos,
                prediction := result }])

/-- The eight form keys the normalizer reads (lines 78-87 of `app.py`). -/
def FEATURE_KEYS : List String :=
  ["age", "glucose", "bloodpressure", "insulin", "bmi",
   "pregnancies", "skinthickness", "dpf"]

/-- A fully valid submission with the optional fields left blank: the
worked end-to-end example of the spec. -/
def exampleForm : Form :=
  [("name", "Alice"), ("age", "45"), ("glucose", "180"),
   ("bloodpressure", "90"), ("insulin", "120"), ("bmi", "32.5")]

/-- The normalized result of `exampleForm`: `[0, 180, 90, 10, 120, 32.5,
0.2, 45]` in feature order. -/
def exampleNormalized : Normalized :=
  { pregnancies := 0, age := 45, glucose := 180, bloodpressure := 90,
    skinthickness := 10, insulin := 120, bmi := 65/2, dpf := 1/5 }

/-- The valid submission with `dpf` explicitly submitted as `0.0`. -/
def exampleFormDpf0 : Form :=
  exampleForm ++ [("dpf", "0.0")]

/-- The valid submission with `glucose` submitted far above its range. -/
def exampleFormGlucose9999 : Form :=
  [("name", "Alice"), ("age", "45"), ("glucose", "9999"),
   ("bloodpressure", "90"), ("insulin", "120"), ("bmi", "32.5")]

/-- An invalid submission: `glucose` and `insulin` absent, `bloodpressure`
non-numeric, `bmi` empty. -/
def invalidForm : Form :=
  [("name", "Bob"), ("age", "45"), ("bloodpressure", "abc"), ("bmi", "")]

/-- The valid submission without a `name` field. -/
def namelessForm : Form :=
  [("age", "45"), ("glucose", "180"), ("bloodpressure", "90"),
   ("insulin", "120"), ("bmi", "32.5")]

/-- A submission without a `name` field that also fails validation. -/
def namelessInvalidForm : Form :=
  [("age", "45")]

/-- A classifier that always answers class 1 with probability row
[0.3, 0.7]. -/
def constClassifier : Classifier :=
  { predict_proba := fun _ => .ok [3/10, 7/10]
    predict := fun _ => .ok [1] }

/-- A classifier that answers like `constClassifier` on rows of length 8
and rejects any other shape. -/
def shapeCheckingClassifier : Classifier :=
  { predict_proba := fun fs =>
      if fs.length = 8 then .ok [3/10, 7/10] else .error "shape mismatch"
    predict := fun fs =>
      if fs.length = 8 then .ok [1] else .error "shape mismatch" }

/-- A classifier whose probability invocation raises. -/
def raisingClassifier : Classifier :=
  { predict_proba := fun _ => .error "boom"
    predict := fun _ => .ok [1] }

/-- The required field names, in the order of the `required` dict of
`app.py` line 90. -/
def REQUIRED_FIELDS : List String :=
  ["age", "glucose", "bloodpressure", "insulin", "bmi"]

/-- The cast applied to a required field: `float` for bmi, `int` for the
rest (lines 78-82 of `app.py`). -/
def requiredCast (k : String) : String → Option ℚ :=
  if k = "bmi" then parseFloatQ else parseIntQ

/-- A submitted value counts as unavailable when it is absent, empty, or
rejected by the cast — exactly the situations in which `to_number` falls
back to its default. -/
def unavailable (v : Option String) (cast : String → Option ℚ) : Bool :=
  match v with
  | none => true
  | some s => s = "" || (cast s).isNone

/-- The list of required field names whose submitted value is missing or
unparsable, in validation order (line 91 of `app.py`). -/
def missingOf (form : Form) : List String :=
  (([("age", to_number (form.get "age") parseIntQ none),
     ("glucose", to_number (form.get "glucose") parseIntQ none),
     ("bloodpressure", to_number (form.get "bloodpressure") parseIntQ none),
     ("insulin", to_number (form.get "insulin") parseIntQ none),
     ("bmi", to_number (form.get "bmi") parseFloatQ none)].filter
      (fun p => p.2.isNone)).map Prod.fst)

theorem to_number_isNone_iff (v : Option String) (c : String → Option ℚ) :
    (to_number v c none).isNone = unavailable v c := by
  cases v with
  | none => rfl
  | some s =>
    by_cases hs : s = "" <;> cases hc : c s <;>
      simp [to_number, unavailable, hs, hc]

theorem to_number_default_of_unavailable (v : Option String)
    (c : String → Option ℚ) (d : Option ℚ) (h : unavailable v c = true) :
    to_number v c d = d := by
  cases v with
  | none => rfl
  | some s =>
    by_cases hs : s = "" <;> cases hc : c s <;>
      simp_all [to_number, unavailable, hs, hc]

theorem ranges_lo_le_hi (f : Field) : (RANGES f).1 ≤ (RANGES f).2 := by
  cases f <;> norm_num [RANGES]

theorem clampSome_eq (f : Field) (v : ℚ) :
    clampSome f v = max (RANGES f).1 (min (RANGES f).2 v) := rfl

theorem clampSome_mem (f : Field) (v : ℚ) :
    (RANGES f).1 ≤ clampSome f v ∧ clampSome f v ≤ (RANGES f).2 := by
  rw [clampSome_eq]
  exact ⟨le_max_left _ _, max_le (ranges_lo_le_hi f) (min_le_left _ _)⟩

theorem missingOf_eq_nil_iff (form : Form) :
    missingOf form = [] ↔
      (to_number (form.get "age") parseIntQ none ≠ none ∧
       to_number (form.get "glucose") parseIntQ none ≠ none ∧
       to_number (form.get "bloodpressure") parseIntQ none ≠ none ∧
       to_number (form.get "insulin") parseIntQ none ≠ none ∧
       to_number (form.get "bmi") parseFloatQ none ≠ none) := by
  cases h1 : to_number (form.get "age") parseIntQ none <;>
  cases h2 : to_number (form.get "glucose") parseIntQ none <;>
  cases h3 : to_number (form.get "bloodpressure") parseIntQ none <;>
  cases h4 : to_number (form.get "insulin") parseIntQ none <;>
  cases h5 : to_number (form.get "bmi") parseFloatQ none <;>
    simp [missingOf, List.filter, h1, h2, h3, h4, h5]

theorem normalize_error_eq (form : Form) (e : ValidationError)
    (h : normalize form = .error e) :
    e.missingFields = missingOf form ∧ missingOf form ≠ [] := by
  unfold normalize at h
  simp only [normalizeVals] at h
  split at h
  · exact absurd h (by simp)
  · next h1 =>
    cases h
    refine ⟨rfl, ?_⟩
    intro hnil
    rw [missingOf_eq_nil_iff] at hnil
    obtain ⟨ha, hg, hbp, hins, hb⟩ := hnil
    obtain ⟨a, ha⟩ := Option.ne_none_iff_exists'.mp ha
    obtain ⟨g, hg⟩ := Option.ne_none_iff_exists'.mp hg
    obtain ⟨bp, hbp⟩ := Option.ne_none_iff_exists'.mp hbp
    obtain ⟨ins, hins⟩ := Option.ne_none_iff_exists'.mp hins
    obtain ⟨b, hb⟩ := Option.ne_none_iff_exists'.mp hb
    exact h1 a g bp ins b ha hg hbp hins hb

theorem normalize_ok_spec (form : Form) (n : Normalized)
    (h : normalize form = .ok n) :
    missingOf form = [] ∧
    (∃ a, to_number (form.get "age") parseIntQ none = some a ∧
      n.age = clampSome .age a) ∧
    (∃ g, to_number (form.get "glucose") parseIntQ none = some g ∧
      n.glucose = clampSome .glucose g) ∧
    (∃ bp, to_number (form.get "bloodpressure") parseIntQ none = some bp ∧
      n.bloodpressure = clampSome .bloodpressure bp) ∧
    (∃ i, to_number (form.get "insulin") parseIntQ none = some i ∧
      n.insulin = clampSome .insulin i) ∧
    (∃ b, to_number (form.get "bmi") parseFloatQ none = some b ∧
      n.bmi = clampSome .bmi b) ∧
    n.pregnancies = clampSome .pregnancies
      (orElse0 ((to_number (form.get "pregnancies") parseIntQ
        (some DEFAULTS_pregnancies)).getD DEFAULTS_pregnancies) DEFAULTS_pregnancies) ∧
    n.skinthickness = clampSome .skinthickness
      (orElse0 ((to_number (form.get "skinthickness") parseIntQ
        (some DEFAULTS_skinthickness)).getD DEFAULTS_skinthickness) DEFAULTS_skinthickness) ∧
    n.dpf = clampSome .dpf
      (orElse0 ((to_number (form.get "dpf") parseFloatQ
        (some DEFAULTS_dpf)).getD DEFAULTS_dpf) DEFAULTS_dpf) := by
  unfold normalize at h
  simp only [normalizeVals] at h
  split at h
  · next a g bp ins b ha hg hbp hins hb =>
    cases h
    refine ⟨?_, ⟨a, ha, rfl⟩, ⟨g, hg, rfl⟩, ⟨bp, hbp, rfl⟩, ⟨ins, hins, rfl⟩,
      ⟨b, hb, rfl⟩, rfl, rfl, rfl⟩
    rw [missingOf_eq_nil_iff]
    simp [ha, hg, hbp, hins, hb]
  · exact absurd h (by simp)

theorem normalize_ok_of_missing_nil (form : Form) (h : missingOf form = []) :
    ∃ n, normalize form = .ok n := by
  rw [missingOf_eq_nil_iff] at h
  obtain ⟨ha, hg, hbp, hins, hb⟩ := h
  obtain ⟨a, ha⟩ := Option.ne_none_iff_exists'.mp ha
  obtain ⟨g, hg⟩ := Option.ne_none_iff_exists'.mp hg
  obtain ⟨bp, hbp⟩ := Option.ne_none_iff_exists'.mp hbp
  obtain ⟨ins, hins⟩ := Option.ne_none_iff_exists'.mp hins
  obtain ⟨b, hb⟩ := Option.ne_none_iff_exists'.mp hb
  unfold normalize
  simp only [normalizeVals]
  rw [ha, hg, hbp, hins, hb]
  exact ⟨_, rfl⟩


theorem missingOf_mem_iff (form : Form) (k : String) :
    k ∈ missingOf form ↔
      k ∈ REQUIRED_FIELDS ∧ unavailable (form.get k) (requiredCast k) = true := by
  have e1 := to_number_isNone_iff (form.get "age") parseIntQ
  have e2 := to_number_isNone_iff (form.get "glucose") parseIntQ
  have e3 := to_number_isNone_iff (form.get "bloodpressure") parseIntQ
  have e4 := to_number_isNone_iff (form.get "insulin") parseIntQ
  have e5 := to_number_isNone_iff (form.get "bmi") parseFloatQ
  simp only [missingOf, REQUIRED_FIELDS, List.mem_map, List.mem_filter]
  constructor
  · rintro ⟨x, ⟨hx, hnone⟩, rfl⟩
    simp only [List.mem_cons, List.not_mem_nil, or_false] at hx
    rcases hx with rfl | rfl | rfl | rfl | rfl <;>
      simp_all [requiredCast]
  · rintro ⟨hk, hun⟩
    simp only [List.mem_cons, List.not_mem_nil, or_false] at hk
    rcases hk with rfl | rfl | rfl | rfl | rfl
    · exact ⟨("age", to_number (form.get "age") parseIntQ none),
        ⟨by simp, by rw [e1]; exact hun⟩, rfl⟩
    · exact ⟨("glucose", to_number (form.get "glucose") parseIntQ none),
        ⟨by simp, by rw [e2]; exact hun⟩, rfl⟩
    · exact ⟨("bloodpressure", to_number (form.get "bloodpressure") parseIntQ none),
        ⟨by simp, by rw [e3]; exact hun⟩, rfl⟩
    · exact ⟨("insulin", to_number (form.get "insulin") parseIntQ none),
        ⟨by simp, by rw [e4]; exact hun⟩, rfl⟩
    · exact ⟨("bmi", to_number (form.get "bmi") parseFloatQ none),
        ⟨by simp, by rw [e5]; exact hun⟩, rfl⟩

theorem score_error_iff (c : Classifier) (fs : List ℚ) :
    (∃ msg, score c fs = .error msg) ↔
      (∃ e, c.predict_proba fs = .error e) ∨
      (∃ probs, c.predict_proba fs = .ok probs ∧ probs[1]? = none) ∨
      (∃ e, c.predict fs = .error e) ∨
      (∃ preds, c.predict fs = .ok preds ∧ preds[0]? = none) := by
  cases hpp : c.predict_proba fs with
  | error e => simp [score, hpp]
  | ok probs =>
    cases hg1 : probs[1]? with
    | none =>
      simp [score, hpp, hg1]
      exact Or.inl (List.getElem?_eq_none_iff.mp hg1)
    | some pp =>
      cases hpr : c.predict fs with
      | error e => simp [score, hpp, hg1, hpr]
      | ok preds =>
        cases hg0 : preds[0]? with
        | none =>
          simp [score, hpp, hg1, hpr, hg0]
          exact Or.inr (List.eq_nil_of_length_eq_zero
            (Nat.le_zero.mp (List.getElem?_eq_none_iff.mp hg0)))
        | some pd =>
          have hl1 : 1 < probs.length := by
            by_contra hle
            rw [List.getElem?_eq_none (Nat.le_of_not_lt hle)] at hg1
            exact Option.noConfusion hg1
          have hl0 : preds ≠ [] := by
            intro h0
            subst h0
            simp at hg0
          simp [score, hpp, hg1, hpr, hg0, hl1, hl0]

theorem predict_spec (c : Classifier) (form : Form) (db : List PatientRecord) :
    (∃ e, normalize form = .error e ∧
      predict c form db = (.validationError e.missingFields, db)) ∨
    (∃ n msg, normalize form = .ok n ∧ score c n.features = .error msg ∧
      predict c form db =
        (.scoringError ("Model prediction error: " ++ msg), db)) ∨
    (∃ n pred p, normalize form = .ok n ∧ score c n.features = .ok (pred, p) ∧
      predict c form db =
        (.ok ((form.get "name").getD "Unknown")
             (if pred = 1 then "Diabetes Risk" else "No Risk") p n,
         db ++ [{ name := (form.get "name").getD "Unknown", age := n.age,
                  pregnancies := n.pregnancies, glucose := n.glucose,
                  bloodpressure := n.bloodpressure,
                  skinthickness := n.skinthickness, insulin := n.insulin,
                  bmi := n.bmi, dpf := n.dpf, probability := p,
                  prediction :=
                    if pred = 1 then "Diabetes Risk" else "No Risk" }])) := by
  cases hn : normalize form with
  | error e => exact Or.inl ⟨e, rfl, by simp [predict, hn]⟩
  | ok n =>
    cases hs : score c n.features with
    | error msg =>
      exact Or.inr (Or.inl ⟨n, msg, rfl, hs, by simp [predict, hn, hs]⟩)
    | ok pr =>
      obtain ⟨pred, p⟩ := pr
      exact Or.inr (Or.inr ⟨n, pred, p, rfl, hs, by simp [predict, hn, hs]⟩)

/-- Claim C1 (refuted by the code): a `dpf` submitted as `0.0` parses to
`0`, yet the normalized `dpf` is the default `0.2`, not `0.0` — line 103
of `app.py` (`dpf or DEFAULTS["dpf"]`) treats the falsy `0.0` as blank,
against the stated policy that only absence or unparsability triggers
default substitution. -/
theorem C1_dpf_zero_replaced_by_default :
    parseFloatQ "0.0" = some 0 ∧
    DEFAULTS_dpf = 1/5 ∧
    normalize exampleFormDpf0 = Except.ok
      { pregnancies := 0, age := 45, glucose := 180, bloodpressure := 90,
        skinthickness := 10, insulin := 120, bmi := 65/2,
        dpf := DEFAULTS_dpf } ∧
    DEFAULTS_dpf ≠ 0 := by
  refine ⟨?_, rfl, ?_, by norm_num [DEFAULTS_dpf]⟩
  · simp [parseFloatQ, parseFloatCore, stripWs, parseNatDigits, digitsToNat]
  · simp [normalize, normalizeVals, Form.get, exampleFormDpf0, exampleForm,
      to_number, parseIntQ, parseFloatQ, parseFloatCore, stripWs,
      parseNatDigits, digitsToNat, clampSome, clamp, orElse0, RANGES,
      DEFAULTS_pregnancies, DEFAULTS_skinthickness, DEFAULTS_dpf]
    norm_num

/-- Claim C4: normalization clamps with a saturating clamp against the
declared [lo, hi] range of the field — a value below lo becomes lo, above
hi becomes hi, inside the range it is unchanged — each required field is
normalized to exactly the clamp of its parsed value, and an out-of-range
value is never rejected: normalization succeeds exactly when no required
field is missing, and glucose 9999 normalizes to 500. -/
theorem C4_saturating_clamp :
    (∀ (f : Field) (v : ℚ),
      (v < (RANGES f).1 → clamp f (some v) = some (RANGES f).1) ∧
      ((RANGES f).2 < v → clamp f (some v) = some (RANGES f).2) ∧
      ((RANGES f).1 ≤ v → v ≤ (RANGES f).2 → clamp f (some v) = some v)) ∧
    (∀ (form : Form) (n : Normalized), normalize form = .ok n →
      (∀ v, to_number (form.get "age") parseIntQ none = some v →
        n.age = clampSome .age v) ∧
      (∀ v, to_number (form.get "glucose") parseIntQ none = some v →
        n.glucose = clampSome .glucose v) ∧
      (∀ v, to_number (form.get "bloodpressure") parseIntQ none = some v →
        n.bloodpressure = clampSome .bloodpressure v) ∧
      (∀ v, to_number (form.get "insulin") parseIntQ none = some v →
        n.insulin = clampSome .insulin v) ∧
      (∀ v, to_number (form.get "bmi") parseFloatQ none = some v →
        n.bmi = clampSome .bmi v)) ∧
    (∀ form : Form, (∃ n, normalize form = .ok n) ↔ missingOf form = []) ∧
    (normalize exampleFormGlucose9999).toOption.map Normalized.glucose
      = some 500 := by
  refine ⟨fun f v => ⟨fun hlt => ?_, fun hgt => ?_, fun hlo hhi => ?_⟩,
    fun form n hn => ?_,
    fun form => ⟨fun ⟨n, hn⟩ => (normalize_ok_spec form n hn).1,
      normalize_ok_of_missing_nil form⟩, ?_⟩
  · have hv : v ≤ (RANGES f).2 := le_of_lt (lt_of_lt_of_le hlt (ranges_lo_le_hi f))
    simp [clamp, min_eq_right hv, max_eq_left (le_of_lt hlt)]
  · simp [clamp, min_eq_left (le_of_lt hgt), max_eq_right (ranges_lo_le_hi f)]
  · simp [clamp, min_eq_right hhi, max_eq_right hlo]
  · obtain ⟨-, ⟨a, ha, hae⟩, ⟨g, hg, hge⟩, ⟨bp, hbp, hbpe⟩, ⟨i, hi, hie⟩,
      ⟨b, hb, hbe⟩, -, -, -⟩ := normalize_ok_spec form n hn
    refine ⟨fun v hv => ?_, fun v hv => ?_, fun v hv => ?_, fun v hv => ?_,
      fun v hv => ?_⟩
    · rw [ha] at hv
      cases hv
      exact hae
    · rw [hg] at hv
      cases hv
      exact hge
    · rw [hbp] at hv
      cases hv
      exact hbpe
    · rw [hi] at hv
      cases hv
      exact hie
    · rw [hb] at hv
      cases hv
      exact hbe
  · simp [normalize, normalizeVals, Form.get, exampleFormGlucose9999,
      to_number, parseIntQ, parseFloatQ, parseFloatCore, stripWs,
      parseNatDigits, digitsToNat, clampSome, clamp, orElse0, RANGES,
      DEFAULTS_pregnancies, DEFAULTS_skinthickness, DEFAULTS_dpf]
    norm_num
    exact ⟨_, rfl, rfl⟩

/-- Witness for C4 at concrete inputs: glucose 9999 saturates up to 500,
glucose 5 saturates down to 20, bmi 30 is unchanged, and the pipeline
normalizes the submitted glucose 9999 to the clamp of 9999. -/
theorem C4_saturating_clamp_witness :
    clamp .glucose (some 9999) = some (RANGES .glucose).2 ∧
    clamp .glucose (some 5) = some (RANGES .glucose).1 ∧
    clamp .bmi (some 30) = some 30 ∧
    (Normalized.mk 0 45 500 90 10 120 (65/2) (1/5)).glucose =
      clampSome .glucose 9999 := by
  refine ⟨(C4_saturating_clamp.1 .glucose 9999).2.1 (by norm_num [RANGES]),
    (C4_saturating_clamp.1 .glucose 5).1 (by norm_num [RANGES]),
    (C4_saturating_clamp.1 .bmi 30).2.2 (by norm_num [RANGES])
      (by norm_num [RANGES]),
    (C4_saturating_clamp.2.1 exampleFormGlucose9999
      (Normalized.mk 0 45 500 90 10 120 (65/2) (1/5)) ?_).2.1 9999 (by decide)⟩
  simp [normalize, normalizeVals, Form.get, exampleFormGlucose9999,
    to_number, parseIntQ, parseFloatQ, parseFloatCore, stripWs,
    parseNatDigits, digitsToNat, clampSome, clamp, orElse0, RANGES,
    DEFAULTS_pregnancies, DEFAULTS_skinthickness, DEFAULTS_dpf]
  norm_num [max_def, min_def]

/-- Claim C5: when an optional field is absent, empty, or unparsable, its
normalized value is the declared default: pregnancies 0, skinthickness 10,
dpf 0.2. -/
theorem C5_optional_defaults (form : Form) (n : Normalized)
    (h : normalize form = .ok n) :
    (unavailable (form.get "pregnancies") parseIntQ = true →
      n.pregnancies = DEFAULTS_pregnancies) ∧
    (unavailable (form.get "skinthickness") parseIntQ = true →
      n.skinthickness = DEFAULTS_skinthickness) ∧
    (unavailable (form.get "dpf") parseFloatQ = true →
      n.dpf = DEFAULTS_dpf) := by
  obtain ⟨-, -, -, -, -, -, hp, hst, hd⟩ := normalize_ok_spec form n h
  refine ⟨fun hu => ?_, fun hu => ?_, fun hu => ?_⟩
  · rw [hp, to_number_default_of_unavailable _ _ _ hu]
    norm_num [clampSome, clamp, orElse0, DEFAULTS_pregnancies, RANGES]
  · rw [hst, to_number_default_of_unavailable _ _ _ hu]
    norm_num [clampSome, clamp, orElse0, DEFAULTS_skinthickness, RANGES]
  · rw [hd, to_number_default_of_unavailable _ _ _ hu]
    norm_num [clampSome, clamp, orElse0, DEFAULTS_dpf, RANGES]

/-- Witness for C5: in the worked example all three optional fields are
absent and normalize to their defaults. -/
theorem C5_optional_defaults_witness :
    exampleNormalized.pregnancies = DEFAULTS_pregnancies ∧
    exampleNormalized.skinthickness = DEFAULTS_skinthickness ∧
    exampleNormalized.dpf = DEFAULTS_dpf := by
  have h : normalize exampleForm = .ok exampleNormalized := by
    simp [normalize, normalizeVals, Form.get, exampleForm, exampleNormalized,
      to_number, parseIntQ, parseFloatQ, parseFloatCore, stripWs,
      parseNatDigits, digitsToNat, clampSome, clamp, orElse0, RANGES,
      DEFAULTS_pregnancies, DEFAULTS_skinthickness, DEFAULTS_dpf]
    norm_num
  have hc := C5_optional_defaults exampleForm exampleNormalized h
  exact ⟨hc.1 (by decide), hc.2.1 (by decide), hc.2.2 (by decide)⟩

/-- Claim C7: every successfully normalized value lies within the declared
closed range of its field. -/
theorem C7_range_invariant (form : Form) (n : Normalized)
    (h : normalize form = .ok n) :
    (0 ≤ n.pregnancies ∧ n.pregnancies ≤ 20) ∧
    (20 ≤ n.glucose ∧ n.glucose ≤ 500) ∧
    (20 ≤ n.bloodpressure ∧ n.bloodpressure ≤ 200) ∧
    (5 ≤ n.skinthickness ∧ n.skinthickness ≤ 100) ∧
    (0 ≤ n.insulin ∧ n.insulin ≤ 900) ∧
    (10 ≤ n.bmi ∧ n.bmi ≤ 70) ∧
    (0 ≤ n.dpf ∧ n.dpf ≤ 3) ∧
    (1 ≤ n.age ∧ n.age ≤ 120) := by
  obtain ⟨-, ⟨a, -, ha⟩, ⟨g, -, hg⟩, ⟨bp, -, hbp⟩, ⟨i, -, hi⟩, ⟨b, -, hb⟩,
    hp, hst, hd⟩ := normalize_ok_spec form n h
  rw [ha, hg, hbp, hi, hb, hp, hst, hd]
  exact ⟨⟨(clampSome_mem _ _).1, (clampSome_mem _ _).2⟩,
    ⟨(clampSome_mem _ _).1, (clampSome_mem _ _).2⟩,
    ⟨(clampSome_mem _ _).1, (clampSome_mem _ _).2⟩,
    ⟨(clampSome_mem _ _).1, (clampSome_mem _ _).2⟩,
    ⟨(clampSome_mem _ _).1, (clampSome_mem _ _).2⟩,
    ⟨(clampSome_mem _ _).1, (clampSome_mem _ _).2⟩,
    ⟨(clampSome_mem _ _).1, (clampSome_mem _ _).2⟩,
    ⟨(clampSome_mem _ _).1, (clampSome_mem _ _).2⟩⟩

/-- Witness for C7: the normalized values of the worked example satisfy the
range invariant. -/
theorem C7_range_invariant_witness :
    (0 ≤ exampleNormalized.pregnancies ∧ exampleNormalized.pregnancies ≤ 20) ∧
    (20 ≤ exampleNormalized.glucose ∧ exampleNormalized.glucose ≤ 500) ∧
    (20 ≤ exampleNormalized.bloodpressure ∧ exampleNormalized.bloodpressure ≤ 200) ∧
    (5 ≤ exampleNormalized.skinthickness ∧ exampleNormalized.skinthickness ≤ 100) ∧
    (0 ≤ exampleNormalized.insulin ∧ exampleNormalized.insulin ≤ 900) ∧
    (10 ≤ exampleNormalized.bmi ∧ exampleNormalized.bmi ≤ 70) ∧
    (0 ≤ exampleNormalized.dpf ∧ exampleNormalized.dpf ≤ 3) ∧
    (1 ≤ exampleNormalized.age ∧ exampleNormalized.age ≤ 120) := by
  refine C7_range_invariant exampleForm exampleNormalized ?_
  simp [normalize, normalizeVals, Form.get, exampleForm, exampleNormalized,
    to_number, parseIntQ, parseFloatQ, parseFloatCore, stripWs,
    parseNatDigits, digitsToNat, clampSome, clamp, orElse0, RANGES,
    DEFAULTS_pregnancies, DEFAULTS_skinthickness, DEFAULTS_dpf]
  norm_num

/-- Successful scoring decomposes into a successful probability row with an
entry at index 1 and a successful class list with an entry at index 0. -/
theorem score_ok_iff (c : Classifier) (fs : List ℚ) (pred : Int) (p : ℚ) :
    score c fs = .ok (pred, p) ↔
      ∃ probs preds, c.predict_proba fs = .ok probs ∧ probs[1]? = some p ∧
        c.predict fs = .ok preds ∧ preds[0]? = some pred := by
  constructor
  · intro h
    cases hpp : c.predict_proba fs with
    | error e =>
      rw [show score c fs = .error e by simp [score, hpp]] at h
      exact absurd h (by simp)
    | ok probs =>
      cases hg1 : probs[1]? with
      | none =>
        rw [show score c fs = .error "list index out of range" by
          simp [score, hpp, hg1]] at h
        exact absurd h (by simp)
      | some pp =>
        cases hpr : c.predict fs with
        | error e =>
          rw [show score c fs = .error e by simp [score, hpp, hg1, hpr]] at h
          exact absurd h (by simp)
        | ok preds =>
          cases hg0 : preds[0]? with
          | none =>
            rw [show score c fs = .error "list index out of range" by
              simp [score, hpp, hg1, hpr, hg0]] at h
            exact absurd h (by simp)
          | some pd =>
            rw [show score c fs = .ok (pd, pp) by
              simp [score, hpp, hg1, hpr, hg0]] at h
            simp only [Except.ok.injEq, Prod.mk.injEq] at h
            obtain ⟨h1, h2⟩ := h
            subst h1
            subst h2
            exact ⟨probs, preds, rfl, hg1, rfl, hg0⟩
  · rintro ⟨probs, preds, hpp, hg1, hpr, hg0⟩
    simp [score, hpp, hg1, hpr, hg0]

/-- Claim C2: normalization fails exactly when some required field (age,
glucose, bloodpressure, insulin, bmi) is absent, empty, or non-numeric; the
validation error then lists exactly the names of all failing required
fields, not just the first. -/
theorem C2_required_validation (form : Form) :
    ((∃ k, k ∈ REQUIRED_FIELDS ∧
        unavailable (form.get k) (requiredCast k) = true) →
      ∃ e, normalize form = .error e ∧
        ∀ k, k ∈ e.missingFields ↔
          k ∈ REQUIRED_FIELDS ∧
            unavailable (form.get k) (requiredCast k) = true) ∧
    ((∀ k ∈ REQUIRED_FIELDS, unavailable (form.get k) (requiredCast k) = false) →
      ∃ n, normalize form = .ok n) := by
  constructor
  · rintro ⟨k, hk, hu⟩
    have hmem : k ∈ missingOf form := (missingOf_mem_iff form k).mpr ⟨hk, hu⟩
    have hne : missingOf form ≠ [] := by
      intro h0
      rw [h0] at hmem
      exact List.not_mem_nil k hmem
    cases hn : normalize form with
    | ok n => exact absurd (normalize_ok_spec form n hn).1 hne
    | error e =>
      refine ⟨e, rfl, fun k2 => ?_⟩
      rw [(normalize_error_eq form e hn).1]
      exact missingOf_mem_iff form k2
  · intro hall
    apply normalize_ok_of_missing_nil
    by_contra hne
    obtain ⟨k, hk⟩ := List.exists_mem_of_ne_nil _ hne
    have h2 := (missingOf_mem_iff form k).mp hk
    have h3 := hall k h2.1
    rw [h2.2] at h3
    exact Bool.noConfusion h3

/-- Witness for C2: the invalid submission fails naming every bad required
field, the valid one normalizes. -/
theorem C2_witness :
    (∃ e, normalize invalidForm = .error e ∧
      ∀ k, k ∈ e.missingFields ↔
        k ∈ REQUIRED_FIELDS ∧
          unavailable (invalidForm.get k) (requiredCast k) = true) ∧
    (∃ n, normalize exampleForm = .ok n) :=
  ⟨(C2_required_validation invalidForm).1 ⟨"glucose", by decide, by decide⟩,
   (C2_required_validation exampleForm).2 (by decide)⟩

/-- Claim C3: on a successful request the verdict label is "Diabetes Risk"
iff the predicted class is 1 (any other class gives "No Risk"), and the
reported probability is exactly entry 1 of the probability row of the
classifier, with no reordering. -/
theorem C3_verdict_contract (c : Classifier) (form : Form)
    (db : List PatientRecord) (nm res : String) (p : ℚ) (n : Normalized)
    (h : (predict c form db).1 = .ok nm res p n) :
    ∃ probs preds pred,
      c.predict_proba n.features = .ok probs ∧
      probs[1]? = some p ∧
      c.predict n.features = .ok preds ∧
      preds[0]? = some pred ∧
      (res = "Diabetes Risk" ↔ pred = 1) ∧
      (pred ≠ 1 → res = "No Risk") := by
  rcases predict_spec c form db with ⟨e, hn, hp⟩ | ⟨n0, msg0, hn, hs, hp⟩ |
    ⟨n0, pred, p0, hn, hs, hp⟩
  · rw [hp] at h
    exact absurd h (by simp)
  · rw [hp] at h
    exact absurd h (by simp)
  · rw [hp] at h
    simp only [Response.ok.injEq] at h
    obtain ⟨hnm, hres, hpv, hnv⟩ := h
    subst hnv
    subst hpv
    obtain ⟨probs, preds, hpp, hg1, hpr, hg0⟩ := (score_ok_iff _ _ _ _).mp hs
    refine ⟨probs, preds, pred, hpp, hg1, hpr, hg0, ?_, ?_⟩
    · constructor
      · intro hres2
        by_contra hne
        rw [if_neg hne] at hres
        rw [← hres] at hres2
        exact absurd hres2 (by decide)
      · intro h1
        rw [← hres, if_pos h1]
    · intro hne
      rw [← hres, if_neg hne]

/-- Claim C6: normalization depends only on the eight field lookups (not on
the iteration order of the form), the feature vector has exactly 8 entries
in the fixed order [pregnancies, glucose, bloodpressure, skinthickness,
insulin, bmi, dpf, age], and on success the classifier is consulted only on
that vector. -/
theorem C6_feature_order :
    (∀ f1 f2 : Form, (∀ k ∈ FEATURE_KEYS, f1.get k = f2.get k) →
      normalize f1 = normalize f2) ∧
    (∀ n : Normalized, n.features.length = 8 ∧
      n.features = [n.pregnancies, n.glucose, n.bloodpressure,
        n.skinthickness, n.insulin, n.bmi, n.dpf, n.age]) ∧
    (∀ (c1 c2 : Classifier) (form : Form) (db : List PatientRecord)
        (n : Normalized), normalize form = .ok n →
      c1.predict_proba n.features = c2.predict_proba n.features →
      c1.predict n.features = c2.predict n.features →
      predict c1 form db = predict c2 form db) := by
  refine ⟨fun f1 f2 h => ?_, fun n => ⟨rfl, rfl⟩,
    fun c1 c2 form db n hn hcp hcc => ?_⟩
  · have h1 := h "age" (by simp [FEATURE_KEYS])
    have h2 := h "glucose" (by simp [FEATURE_KEYS])
    have h3 := h "bloodpressure" (by simp [FEATURE_KEYS])
    have h4 := h "insulin" (by simp [FEATURE_KEYS])
    have h5 := h "bmi" (by simp [FEATURE_KEYS])
    have h6 := h "pregnancies" (by simp [FEATURE_KEYS])
    have h7 := h "skinthickness" (by simp [FEATURE_KEYS])
    have h8 := h "dpf" (by simp [FEATURE_KEYS])
    unfold normalize
    rw [h1, h2, h3, h4, h5, h6, h7, h8]
  · simp only [predict, hn, score, hcp, hcc]

/-- Claim C8: any classifier failure — a raised exception from either
invocation, a too-short probability row, or an empty class list — is
surfaced as a scoringError response with a message and never propagated as
a raw fault; the store is untouched. -/
theorem C8_scoring_error_contained (c : Classifier) (form : Form)
    (db : List PatientRecord) (n : Normalized)
    (hn : normalize form = .ok n)
    (hfail : (∃ e, c.predict_proba n.features = .error e) ∨
      (∃ probs, c.predict_proba n.features = .ok probs ∧ probs[1]? = none) ∨
      (∃ e, c.predict n.features = .error e) ∨
      (∃ preds, c.predict n.features = .ok preds ∧ preds[0]? = none)) :
    ∃ msg, predict c form db = (.scoringError msg, db) := by
  obtain ⟨msg, hmsg⟩ := (score_error_iff c n.features).mpr hfail
  exact ⟨"Model prediction error: " ++ msg, by simp [predict, hn, hmsg]⟩

/-- Claim C9: a patient record is persisted exactly when scoring succeeds —
on a validation or scoring error the store is unchanged, and on success
exactly one record, carrying the normalized inputs, probability and label,
is appended. -/
theorem C9_persist_on_success_only (c : Classifier) (form : Form)
    (db : List PatientRecord) :
    (∀ m, (predict c form db).1 = .validationError m →
      (predict c form db).2 = db) ∧
    (∀ msg, (predict c form db).1 = .scoringError msg →
      (predict c form db).2 = db) ∧
    (∀ nm res p n, (predict c form db).1 = .ok nm res p n →
      (predict c form db).2 =
        db ++ [{ name := nm, age := n.age, pregnancies := n.pregnancies,
                 glucose := n.glucose, bloodpressure := n.bloodpressure,
                 skinthickness := n.skinthickness, insulin := n.insulin,
                 bmi := n.bmi, dpf := n.dpf, probability := p,
                 prediction := res }] ∧
      ((predict c form db).2).length = db.length + 1) := by
  rcases predict_spec c form db with ⟨e, hn, hp⟩ | ⟨n0, msg0, hn, hs, hp⟩ |
    ⟨n0, pred, p0, hn, hs, hp⟩ <;> rw [hp] <;>
    refine ⟨fun m hm => ?_, fun msg hmsg => ?_, fun nm res p n hok => ?_⟩ <;>
    simp_all

/-- Claim C10: when the name field is absent the pipeline still proceeds —
name is never among the validated required fields, and both the response
and the persisted record carry the substitute name "Unknown". -/
theorem C10_missing_name_unknown (c : Classifier) (form : Form)
    (db : List PatientRecord) (hname : form.get "name" = none) :
    (∀ m, (predict c form db).1 = .validationError m → "name" ∉ m) ∧
    (missingOf form = [] →
      ∀ m, (predict c form db).1 ≠ .validationError m) ∧
    (∀ nm res p n, (predict c form db).1 = .ok nm res p n →
      nm = "Unknown") ∧
    (∀ r, (predict c form db).2 = db ++ [r] → r.name = "Unknown") := by
  rcases predict_spec c form db with ⟨e, hn, hp⟩ | ⟨n0, msg0, hn, hs, hp⟩ |
    ⟨n0, pred, p0, hn, hs, hp⟩
  · obtain ⟨hmiss, hne⟩ := normalize_error_eq form e hn
    rw [hp]
    refine ⟨fun m hm => ?_, fun hnil m hm => ?_, fun nm res p n hok => ?_,
      fun r hr => ?_⟩
    · simp only at hm
      cases hm
      rw [hmiss]
      intro hmem
      have hreq := ((missingOf_mem_iff form "name").mp hmem).1
      simp [REQUIRED_FIELDS] at hreq
    · exact hne hnil
    · simp at hok
    · simp at hr
  · rw [hp]
    refine ⟨fun m hm => by simp at hm, fun hnil m hm => by simp at hm,
      fun nm res p n hok => by simp at hok, fun r hr => by simp at hr⟩
  · rw [hp]
    refine ⟨fun m hm => by simp at hm, fun hnil m hm => by simp at hm,
      fun nm res p n hok => ?_, fun r hr => ?_⟩
    · simp only [Response.ok.injEq] at hok
      rw [← hok.1, hname]
      rfl
    · simp only at hr
      have hr2 := List.append_cancel_left hr
      cases hr2
      simp [hname]

/-- The route handler on the worked example with the constant classifier:
verdict "Diabetes Risk" with probability 0.7. -/
theorem predict_example_eval :
    (predict constClassifier exampleForm []).1 =
      .ok "Alice" "Diabetes Risk" (7/10) exampleNormalized := by
  simp [predict, score, constClassifier, normalize, normalizeVals, Form.get,
      exampleForm, exampleNormalized, to_number, parseIntQ, parseFloatQ,
      parseFloatCore, stripWs, parseNatDigits, digitsToNat, clampSome, clamp,
      orElse0, RANGES, DEFAULTS_pregnancies, DEFAULTS_skinthickness,
      DEFAULTS_dpf]
  norm_num [max_def, min_def]

/-- Witness for C3 at the worked example and the constant classifier. -/
theorem C3_witness :
    ∃ probs preds pred,
      constClassifier.predict_proba exampleNormalized.features = .ok probs ∧
      probs[1]? = some (7/10) ∧
      constClassifier.predict exampleNormalized.features = .ok preds ∧
      preds[0]? = some pred ∧
      ("Diabetes Risk" = "Diabetes Risk" ↔ pred = 1) ∧
      (pred ≠ 1 → "Diabetes Risk" = "No Risk") :=
  C3_verdict_contract constClassifier exampleForm [] "Alice" "Diabetes Risk"
    (7/10) exampleNormalized predict_example_eval

/-- The worked end-to-end example of the spec: optional fields blank,
normalizes to [0, 180, 90, 10, 120, 32.5, 0.2, 45]. -/
theorem normalize_example_eval :
    normalize exampleForm = .ok exampleNormalized := by
  simp [normalize, normalizeVals, Form.get, exampleForm, exampleNormalized,
      to_number, parseIntQ, parseFloatQ, parseFloatCore, stripWs,
      parseNatDigits, digitsToNat, clampSome, clamp, orElse0, RANGES,
      DEFAULTS_pregnancies, DEFAULTS_skinthickness, DEFAULTS_dpf]
  norm_num [max_def, min_def]

/-- Witness for C6: a reordered form normalizes identically, and two
classifiers agreeing on the feature row produce identical responses. -/
theorem C6_witness :
    normalize exampleForm.reverse = normalize exampleForm ∧
    predict constClassifier exampleForm [] =
      predict shapeCheckingClassifier exampleForm [] :=
  ⟨C6_feature_order.1 exampleForm.reverse exampleForm (by decide),
   C6_feature_order.2.2 constClassifier shapeCheckingClassifier exampleForm []
     exampleNormalized normalize_example_eval rfl rfl⟩

/-- Witness for C8: a classifier that raises yields a scoringError response
and leaves the store empty. -/
theorem C8_witness :
    ∃ msg, predict raisingClassifier exampleForm [] = (.scoringError msg, []) :=
  C8_scoring_error_contained raisingClassifier exampleForm [] exampleNormalized
    normalize_example_eval (Or.inl ⟨"boom", rfl⟩)

/-- Witness for C9: the worked example appends exactly one record. -/
theorem C9_witness :
    (predict constClassifier exampleForm []).2 =
      [] ++ [{ name := "Alice", age := exampleNormalized.age,
               pregnancies := exampleNormalized.pregnancies,
               glucose := exampleNormalized.glucose,
               bloodpressure := exampleNormalized.bloodpressure,
               skinthickness := exampleNormalized.skinthickness,
               insulin := exampleNormalized.insulin,
               bmi := exampleNormalized.bmi, dpf := exampleNormalized.dpf,
               probability := 7/10, prediction := "Diabetes Risk" }] ∧
    ((predict constClassifier exampleForm []).2).length =
      ([] : List PatientRecord).length + 1 :=
  (C9_persist_on_success_only constClassifier exampleForm []).2.2 "Alice"
    "Diabetes Risk" (7/10) exampleNormalized predict_example_eval

/-- Witness for C10: a nameless invalid submission never lists name as
missing, and a nameless valid one answers with name "Unknown". -/
theorem C10_witness :
    ("name" ∉ ["glucose", "bloodpressure", "insulin", "bmi"]) ∧
    "Unknown" = "Unknown" := by
  constructor
  · exact (C10_missing_name_unknown constClassifier namelessInvalidForm []
      (by decide)).1 ["glucose", "bloodpressure", "insulin", "bmi"] (by decide)
  · refine (C10_missing_name_unknown constClassifier namelessForm []
      (by decide)).2.2.1 "Unknown" "Diabetes Risk" (7/10) exampleNormalized ?_
    simp [predict, score, constClassifier, normalize, normalizeVals, Form.get,
      namelessForm, exampleNormalized, to_number, parseIntQ, parseFloatQ,
      parseFloatCore, stripWs, parseNatDigits, digitsToNat, clampSome, clamp,
      orElse0, RANGES, DEFAULTS_pregnancies, DEFAULTS_skinthickness,
      DEFAULTS_dpf]
    norm_num [max_def, min_def]


end DiaWell
